import Mathlib

/-!
Shallow embedding of the terra-workflow-scale-test-tools repository
(src/scripts/monitor_response_times_v2.py, src/scripts/workflow_info.py,
src/terra_workflow_scale_test_tools/workflow_status.py).

Modelling conventions:
* timestamps are natural numbers of seconds since the Unix epoch;
* a Python exception is a `PyErr` value carried in `Except`;
* JSON values parsed from HTTP bodies are `JVal`;
* an HTTP response is a `Response` record; `Response.ok` mirrors
  `requests.Response.ok`, which is true exactly when `raise_for_status`
  would not raise, i.e. when the status code is not in 400..599;
* each network call is represented by the observation the outside world
  supplies for it (`CallObs` for the monitor script, a consumed list of
  responses `WfEnv` for the workflow DAOs).
-/

inductive PyErr where
  | connectionError
  | httpError
  | jsonDecodeError
  | keyError (k : String)
  | typeError
  | attributeError
  | assertionError (msg : String)
  | credentialError
  | loopFuelExhausted
  | other (msg : String)
deriving DecidableEq, Repr

inductive JVal where
  | null
  | bool (b : Bool)
  | num (n : Int)
  | str (s : String)
  | arr (elems : List JVal)
  | obj (fields : List (String × JVal))

/-- jopt maps a JSON value to the Python value a caller sees from `dict.get`:
JSON `null` becomes Python `None`, anything else is the value itself. -/
def jopt : JVal → Option JVal
  | .null => none
  | v => some v

/-- Python `d[k]` on a parsed JSON value: `KeyError` when the key is absent,
`TypeError` when the value is not an object. -/
def JVal.pyItem : JVal → String → Except PyErr JVal
  | .obj fields, k =>
    match fields.lookup k with
    | some v => .ok v
    | none => .error (.keyError k)
  | _, _ => .error .typeError

/-- Python `d.get(k)` on a parsed JSON value: `None` when the key is absent
or its value is JSON null; `AttributeError` when the value is not an object. -/
def JVal.pyDictGet : JVal → String → Except PyErr (Option JVal)
  | .obj fields, k => .ok ((fields.lookup k).bind jopt)
  | _, _ => .error .attributeError

/-- Python `v == s` for a parsed JSON value `v` and a string literal `s`:
true only when `v` is the same string; any non-string compares unequal. -/
def JVal.eqStr : JVal → String → Bool
  | .str a, b => a == b
  | _, _ => false

/-- Code-point lexicographic comparison of character lists, the order Python
uses to compare strings. -/
def lexLe : List Char → List Char → Bool
  | [], _ => true
  | _ :: _, [] => false
  | a :: as, b :: bs =>
    if a.toNat < b.toNat then true
    else if b.toNat < a.toNat then false
    else lexLe as bs

def strLe (a b : String) : Bool := lexLe a.data b.data

/-- Python `sorted` on a list of strings (ascending, lexicographic). -/
def pySorted (l : List String) : List String :=
  List.insertionSort (fun a b => strLe a b = true) l

/-- Python `s.startswith(p)` over the character lists of the strings. -/
def startsWithChars : List Char → List Char → Bool
  | _, [] => true
  | [], _ :: _ => false
  | s :: ss, p :: ps => (s == p) && startsWithChars ss ps

def pyStartswith (s p : String) : Bool := startsWithChars s.data p.data

/-- Python `s.split(c)` for a one-character separator: the list of (possibly
empty) segments between occurrences of `c`; never empty. -/
def splitOnChar (c : Char) : List Char → List (List Char)
  | [] => [[]]
  | x :: xs =>
    match splitOnChar c xs with
    | [] => [[]]
    | h :: t => if x = c then [] :: h :: t else (x :: h) :: t

/-- Python `s.replace(pat, repl)` for a one-character pattern. -/
def pyReplaceChar (pat : Char) (repl : String) (s : String) : String :=
  ⟨s.data.flatMap fun c => if c = pat then repl.data else [c]⟩

structure Response where
  status_code : Nat
  reason : String
  body : Except PyErr JVal

/-- `requests.Response.ok`: false exactly when `raise_for_status` raises,
i.e. when the status code is 400..599. -/
def Response.ok (r : Response) : Bool :=
  !(400 ≤ r.status_code && r.status_code < 600)

/-- One observed HTTP round trip: the clock reading when the request was
issued, the clock reading when the response handling runs, and either the
response or the transport exception `requests` raised. -/
structure CallObs where
  start_time : Nat
  end_time : Nat
  response : Except PyErr Response

namespace MonitorV2

/-- Two-digit zero padding, as `strftime` does for `%m %d %H %M %S`. -/
def zfill2 (n : Nat) : String :=
  if n < 10 then "0" ++ toString n else toString n

/-- Gregorian calendar date for a number of days since 1970-01-01. -/
def civilFromDays (z : Nat) : Nat × Nat × Nat :=
  let z := z + 719468
  let era := z / 146097
  let doe := z % 146097
  let yoe := (doe - doe / 1460 + doe / 36524 - doe / 146096) / 365
  let y := yoe + era * 400
  let doy := doe - (365 * yoe + yoe / 4 - yoe / 100)
  let mp := (5 * doy + 2) / 153
  let d := doy - (153 * mp + 2) / 5 + 1
  let m := if mp < 10 then mp + 3 else mp - 9
  (if m ≤ 2 then y + 1 else y, m, d)

/-- `datetime.fromtimestamp(t, timezone.utc).strftime("%Y/%m/%d %H:%M:%S")`
for a whole number of seconds since the epoch. -/
def utcDisplayFormat (t : Nat) : String :=
  let days := t / 86400
  let secs := t % 86400
  let ymd := civilFromDays days
  toString ymd.1 ++ "/" ++ zfill2 ymd.2.1 ++ "/" ++ zfill2 ymd.2.2 ++ " " ++
    zfill2 (secs / 3600) ++ ":" ++ zfill2 (secs % 3600 / 60) ++ ":" ++ zfill2 (secs % 60)

/-- `MonitoringUtilityMethods.format_timestamp_as_utc`.  The source body is
`datetime.fromtimestamp(time.time(), timezone.utc).strftime("%Y/%m/%d %H:%M:%S")`:
it reads the current clock (`now`) and never uses `seconds_since_epoch`. -/
def format_timestamp_as_utc (now : Nat) (seconds_since_epoch : Nat) : String :=
  utcDisplayFormat now

/-- A monitoring-info value: Python floats, ints and strings as they occur in
the per-hop records. -/
inductive PyVal where
  | float (seconds : Nat)
  | int (n : Nat)
  | str (s : String)
deriving DecidableEq, Repr

/-- The dict built by `MonitoringUtilityMethods.monitoring_info`, with its
four keys in insertion order. -/
structure MonInfo where
  start_time : PyVal
  response_duration : PyVal
  response_code : PyVal
  response_reason : PyVal
deriving DecidableEq, Repr

/-- `MonitoringUtilityMethods.monitoring_info`: `now` is the `time.time()`
reading taken when the function runs. -/
def monitoring_info (now : Nat) (start_time : Nat) (response : Response) : MonInfo :=
  { start_time := .float start_time
    response_duration := .float (now - start_time)
    response_code := .int response.status_code
    response_reason := .str response.reason }

/-- `MonitoringUtilityMethods.flatten_monitoring_info_dict`: iterates the hop
dict in insertion order, each hop's four metrics in their insertion order, and
converts a float `start_time` with `format_timestamp_as_utc` (which reads the
clock `now`). -/
def flatten_monitoring_info_dict (now : Nat)
    (monitoring_info_dict : List (String × MonInfo)) : List (String × PyVal) :=
  monitoring_info_dict.flatMap fun p =>
    let operation_name := p.1
    let mon_info := p.2
    [(operation_name ++ ".start_time",
        match mon_info.start_time with
        | .float t => .str (format_timestamp_as_utc now t)
        | v => v),
     (operation_name ++ ".response_duration", mon_info.response_duration),
     (operation_name ++ ".response_code", mon_info.response_code),
     (operation_name ++ ".response_reason", mon_info.response_reason)]

/-- What one call of `MonitoringUtilityMethods.write_monitoring_info_to_csv`
does to the output file: the fieldnames used for the columns, whether a header
row is written, and the appended row. -/
structure CsvWrite where
  fieldnames : List String
  wrote_header : Bool
  row : List (String × PyVal)

/-- `MonitoringUtilityMethods.write_monitoring_info_to_csv`: the fieldnames
are `sorted(row_info.keys())`; a header is written only when the output file
does not yet exist. -/
def write_monitoring_info_to_csv (now : Nat)
    (monitoring_info_dict : List (String × MonInfo)) (file_exists : Bool) : CsvWrite :=
  let row_info := flatten_monitoring_info_dict now monitoring_info_dict
  { fieldnames := pySorted (row_info.map Prod.fst)
    wrote_header := !file_exists
    row := row_info }

structure TerraDeploymentInfo where
  bond_host : String
  bond_provider : String
  martha_host : String

def terra_bdc_dev : TerraDeploymentInfo :=
  { bond_host := "broad-bond-dev.appspot.com"
    bond_provider := "fence"
    martha_host := "us-central1-broad-dsde-dev.cloudfunctions.net" }

structure Gen3DeploymentInfo where
  gen3_host : String
  public_drs_uri : String
  cloud_uri_scheme : String := "gs"

def gen3_bdc_staging : Gen3DeploymentInfo :=
  { gen3_host := "staging.gen3.biodatacatalyst.nhlbi.nih.gov"
    public_drs_uri := "drs://dg.712C:dg.712C/fa640b0e-9779-452f-99a6-16d833d15bd0" }

/-- `drs_uri.split(":")[-1]`: the object id is the last colon-separated
segment of the DRS URI. -/
def drs_object_id (drs_uri : String) : String :=
  ⟨(splitOnChar ':' drs_uri.data).getLastD []⟩

/-- `TerraMethods.get_fence_token_from_bond` given the observed HTTP round
trip: `token = resp.json().get('token') if resp.ok else None`. -/
def get_fence_token_from_bond (obs : CallObs) : Except PyErr (Option JVal × MonInfo) := do
  let resp ← obs.response
  let token ←
    if resp.ok then
      match resp.body with
      | .error e => Except.error e
      | .ok j => j.pyDictGet "token"
    else pure none
  return (token, monitoring_info obs.end_time obs.start_time resp)

/-- `TerraMethods.get_service_account_key_from_bond`:
`sa_key = resp.json().get('data') if resp.ok else None`. -/
def get_service_account_key_from_bond (obs : CallObs) :
    Except PyErr (Option JVal × MonInfo) := do
  let resp ← obs.response
  let sa_key ←
    if resp.ok then
      match resp.body with
      | .error e => Except.error e
      | .ok j => j.pyDictGet "data"
    else pure none
  return (sa_key, monitoring_info obs.end_time obs.start_time resp)

/-- `Gen3Methods.get_gen3_drs_resolution`: asserts the URI begins with
`drs://`, extracts the object id after the last colon, issues the GET and
returns the parsed body when the response is ok.  The request URL is also
returned so that the id used for the data-index lookup is observable. -/
def get_gen3_drs_resolution (obs : CallObs) (drs_uri : String) :
    Except PyErr (String × Option JVal × MonInfo) :=
  if pyStartswith drs_uri "drs://" then do
    let object_id := drs_object_id drs_uri
    let request_url :=
      "https://" ++ gen3_bdc_staging.gen3_host ++ "/ga4gh/drs/v1/objects/" ++ object_id
    let resp ← obs.response
    let resp_json ←
      if resp.ok then
        match resp.body with
        | .error e => Except.error e
        | .ok j => pure (jopt j)
      else pure none
    return (request_url, resp_json, monitoring_info obs.end_time obs.start_time resp)
  else .error (.assertionError "")

/-- The loop body of `Gen3Methods._get_drs_access_id` over the parsed
`access_methods` array. -/
def getDrsAccessIdLoop (cloud_uri_scheme : String) : List JVal → Except PyErr (Option JVal)
  | [] => .ok none
  | access_method :: rest =>
    match access_method.pyItem "type" with
    | .error e => .error e
    | .ok t =>
      if t.eqStr cloud_uri_scheme then
        (access_method.pyItem "access_id").map jopt
      else
        getDrsAccessIdLoop cloud_uri_scheme rest

/-- `Gen3Methods._get_drs_access_id`: returns the `access_id` of the first
access method whose `type` equals the scheme, `None` when no method matches. -/
def _get_drs_access_id (drs_response : JVal) (cloud_uri_scheme : String) :
    Except PyErr (Option JVal) :=
  match drs_response.pyItem "access_methods" with
  | .error e => .error e
  | .ok (.arr access_methods) => getDrsAccessIdLoop cloud_uri_scheme access_methods
  | .ok _ => .error .typeError

/-- `Gen3Methods.get_gen3_drs_access`: asserts the URI begins with `drs://`,
extracts the object id after the last colon, issues the GET and returns
`resp.json().get('url') if resp.ok else None` plus the request URL. -/
def get_gen3_drs_access (obs : CallObs) (drs_uri : String) (access_id : String) :
    Except PyErr (String × Option JVal × MonInfo) :=
  if pyStartswith drs_uri "drs://" then do
    let object_id := drs_object_id drs_uri
    let request_url :=
      "https://" ++ gen3_bdc_staging.gen3_host ++ "/ga4gh/drs/v1/objects/" ++
        object_id ++ "/access/" ++ access_id
    let resp ← obs.response
    let access_url ←
      if resp.ok then
        match resp.body with
        | .error e => Except.error e
        | .ok j => j.pyDictGet "url"
      else pure none
    return (request_url, access_url, monitoring_info obs.end_time obs.start_time resp)
  else .error (.assertionError "")

/-- The outside world for one execution of
`DrsFlowResponseTimeReporter.measure_response_times`: the pet service-account
token acquisition result and the four observed HTTP round trips, in the order
the flow issues them. -/
structure DrsFlowWorld where
  terra_token : Except PyErr String
  indexd_obs : CallObs
  bond_token_obs : CallObs
  bond_sa_obs : CallObs
  fence_obs : CallObs

def drsFlowHopNames : List String :=
  ["indexd_get_metadata", "bond_get_access_token", "bond_get_sa_key", "fence_get_signed_url"]

/-- `DrsFlowResponseTimeReporter.measure_response_times`: runs the four steps
in order, recording each hop's monitoring info after its call returns; the
`assert fence_user_token is not None` aborts the remainder when Bond yields no
token; every exception is caught at the flow boundary and whatever hops were
recorded so far are returned. -/
def measure_response_times (w : DrsFlowWorld) : List (String × MonInfo) :=
  match w.terra_token with
  | .error _ => []
  | .ok _terra_user_token =>
    match get_gen3_drs_resolution w.indexd_obs gen3_bdc_staging.public_drs_uri with
    | .error _ => []
    | .ok (_url, _drs_metadata, mi1) =>
      let acc1 := [("indexd_get_metadata", mi1)]
      match get_fence_token_from_bond w.bond_token_obs with
      | .error _ => acc1
      | .ok (fence_user_token, mi2) =>
        let acc2 := acc1 ++ [("bond_get_access_token", mi2)]
        match fence_user_token with
        | none => acc2
        | some _ =>
          match get_service_account_key_from_bond w.bond_sa_obs with
          | .error _ => acc2
          | .ok (_sa_key, mi3) =>
            let acc3 := acc2 ++ [("bond_get_sa_key", mi3)]
            match get_gen3_drs_access w.fence_obs gen3_bdc_staging.public_drs_uri "gs" with
            | .error _ => acc3
            | .ok (_u, _access_url, mi4) => acc3 ++ [("fence_get_signed_url", mi4)]

end MonitorV2

/-- The outside world for the workflow DAOs: the identity-token acquisition
results and the responses of the submission-status endpoint, consumed in
order; an exhausted list behaves as a failing credential / transport error. -/
structure WfEnv where
  tokens : List (Except PyErr String)
  responses : List (Except PyErr Response)

def WfEnv.nextToken : WfEnv → (Except PyErr String) × WfEnv
  | ⟨[], rs⟩ => (.error .credentialError, ⟨[], rs⟩)
  | ⟨t :: ts, rs⟩ => (t, ⟨ts, rs⟩)

def WfEnv.nextResponse : WfEnv → (Except PyErr Response) × WfEnv
  | ⟨ts, []⟩ => (.error .connectionError, ⟨ts, []⟩)
  | ⟨ts, r :: rs⟩ => (r, ⟨ts, rs⟩)

/-- The mutable state of a `WorkflowDAO` object: the latest stored snapshot,
`None` until the first successful fetch. -/
structure WorkflowDAOState where
  workflow_info : Option JVal

namespace WorkflowStatus

/-- `WorkflowDAO.update` (src/terra_workflow_scale_test_tools/workflow_status.py):
acquires a token, issues the GET, calls `resp.raise_for_status()` (which
raises for status 400..599), then stores `resp.json() if resp.ok else None`.
On any exception the stored snapshot is left unchanged. -/
def update (env : WfEnv) (dao : WorkflowDAOState) :
    (Except PyErr Unit) × WorkflowDAOState × WfEnv :=
  match env.nextToken with
  | (.error e, env1) => (.error e, dao, env1)
  | (.ok _terra_user_token, env1) =>
    match env1.nextResponse with
    | (.error e, env2) => (.error e, dao, env2)
    | (.ok resp, env2) =>
      if 400 ≤ resp.status_code && resp.status_code < 600 then
        (.error .httpError, dao, env2)
      else if resp.ok then
        match resp.body with
        | .error e => (.error e, dao, env2)
        | .ok j => (.ok (), ⟨jopt j⟩, env2)
      else (.ok (), ⟨none⟩, env2)

/-- `WorkflowDAO.get_workflow_info`: returns the stored snapshot, fetching it
first (lazily) when none has been stored yet. -/
def get_workflow_info (env : WfEnv) (dao : WorkflowDAOState) :
    (Except PyErr (Option JVal)) × WorkflowDAOState × WfEnv :=
  match dao.workflow_info with
  | some info => (.ok (some info), dao, env)
  | none =>
    match update env dao with
    | (.error e, d1, e1) => (.error e, d1, e1)
    | (.ok _, d1, e1) => (.ok d1.workflow_info, d1, e1)

/-- `WorkflowDAO.get_submission_status`: `self.get_workflow_info()['status']`. -/
def get_submission_status (env : WfEnv) (dao : WorkflowDAOState) :
    (Except PyErr JVal) × WorkflowDAOState × WfEnv :=
  match get_workflow_info env dao with
  | (.error e, d1, e1) => (.error e, d1, e1)
  | (.ok none, d1, e1) => (.error .typeError, d1, e1)
  | (.ok (some info), d1, e1) => (info.pyItem "status", d1, e1)

def in_process_status_list : List String := ["Queued", "Submitted", "Running"]

/-- `WorkflowDAO.is_in_process`:
`self.get_workflow_info()['status'] in ["Queued", "Submitted", "Running"]`. -/
def is_in_process (env : WfEnv) (dao : WorkflowDAOState) :
    (Except PyErr Bool) × WorkflowDAOState × WfEnv :=
  match get_workflow_info env dao with
  | (.error e, d1, e1) => (.error e, d1, e1)
  | (.ok none, d1, e1) => (.error .typeError, d1, e1)
  | (.ok (some info), d1, e1) =>
    match info.pyItem "status" with
    | .error e => (.error e, d1, e1)
    | .ok v => (.ok (in_process_status_list.any fun s => v.eqStr s), d1, e1)

/-- `WorkflowDAO.get_submission_time`; `dtfmt iso fmt` stands for the Python
library call `datetime.fromisoformat(iso).strftime(fmt)`, which both DAO
variants invoke identically. -/
def get_submission_time (dtfmt : String → String → Except PyErr String)
    (env : WfEnv) (dao : WorkflowDAOState) (strftime_format_string : Option String) :
    (Except PyErr JVal) × WorkflowDAOState × WfEnv :=
  match get_workflow_info env dao with
  | (.error e, d1, e1) => (.error e, d1, e1)
  | (.ok none, d1, e1) => (.error .typeError, d1, e1)
  | (.ok (some info), d1, e1) =>
    match info.pyItem "submissionDate" with
    | .error e => (.error e, d1, e1)
    | .ok submission_date =>
      match strftime_format_string with
      | none => (.ok submission_date, d1, e1)
      | some fmt =>
        match submission_date with
        | .str s =>
          (((dtfmt (pyReplaceChar 'Z' "+00:00" s) fmt).map JVal.str), d1, e1)
        | _ => (.error .attributeError, d1, e1)

/-- Rendering a JSON value inside a printed f-string; only strings are
rendered by the statuses the poller prints. -/
def pyStr : JVal → String
  | .str s => s
  | .null => "None"
  | .bool true => "True"
  | .bool false => "False"
  | .num n => toString n
  | _ => ""

/-- `wait_for_workflow_to_complete`, with explicit fuel standing for the
number of loop iterations available (the source loop is unbounded): while
`is_in_process()` holds, print the status, sleep, refetch; afterwards print
the final status.  The first returned component is the printed trace and the
last the outcome: `.ok ()` for normal exit, the uncaught exception otherwise. -/
def wait_for_workflow_to_complete :
    Nat → WfEnv → WorkflowDAOState →
    List String × WorkflowDAOState × WfEnv × Except PyErr Unit
  | 0, env, dao => ([], dao, env, .error .loopFuelExhausted)
  | fuel + 1, env, dao =>
    match is_in_process env dao with
    | (.error e, d1, e1) => ([], d1, e1, .error e)
    | (.ok false, d1, e1) =>
      match get_submission_status e1 d1 with
      | (.error e, d2, e2) => ([], d2, e2, .error e)
      | (.ok st, d2, e2) =>
        (["Final Submission status: " ++ pyStr st], d2, e2, .ok ())
    | (.ok true, d1, e1) =>
      match get_submission_status e1 d1 with
      | (.error e, d2, e2) => ([], d2, e2, .error e)
      | (.ok st, d2, e2) =>
        let lines := ["Submission status: " ++ pyStr st,
                      "Sleeping for 30 seconds ...",
                      "Getting current submission status ... "]
        match update e2 d2 with
        | (.error e, d3, e3) => (lines, d3, e3, .error e)
        | (.ok _, d3, e3) =>
          match wait_for_workflow_to_complete fuel e3 d3 with
          | (tr, d4, e4, out) => (lines ++ tr, d4, e4, out)

end WorkflowStatus

namespace WorkflowInfo

/-- `WorkflowDAO.update` (src/scripts/workflow_info.py): identical request
handling to the package variant; only the request URL construction and a
debug print differ, neither of which affects the stored state. -/
def update (env : WfEnv) (dao : WorkflowDAOState) :
    (Except PyErr Unit) × WorkflowDAOState × WfEnv :=
  match env.nextToken with
  | (.error e, env1) => (.error e, dao, env1)
  | (.ok _terra_user_token, env1) =>
    match env1.nextResponse with
    | (.error e, env2) => (.error e, dao, env2)
    | (.ok resp, env2) =>
      if 400 ≤ resp.status_code && resp.status_code < 600 then
        (.error .httpError, dao, env2)
      else if resp.ok then
        match resp.body with
        | .error e => (.error e, dao, env2)
        | .ok j => (.ok (), ⟨jopt j⟩, env2)
      else (.ok (), ⟨none⟩, env2)

/-- `WorkflowDAO.get_workflow_info` (script variant). -/
def get_workflow_info (env : WfEnv) (dao : WorkflowDAOState) :
    (Except PyErr (Option JVal)) × WorkflowDAOState × WfEnv :=
  match dao.workflow_info with
  | some info => (.ok (some info), dao, env)
  | none =>
    match update env dao with
    | (.error e, d1, e1) => (.error e, d1, e1)
    | (.ok _, d1, e1) => (.ok d1.workflow_info, d1, e1)

def IN_PROCESS_STATUS_LIST : List String := ["Queued", "Submitted", "Running"]

/-- `WorkflowDAO.is_in_process` (script variant):
`self.get_workflow_info()['status'] in IN_PROCESS_STATUS_LIST`. -/
def is_in_process (env : WfEnv) (dao : WorkflowDAOState) :
    (Except PyErr Bool) × WorkflowDAOState × WfEnv :=
  match get_workflow_info env dao with
  | (.error e, d1, e1) => (.error e, d1, e1)
  | (.ok none, d1, e1) => (.error .typeError, d1, e1)
  | (.ok (some info), d1, e1) =>
    match info.pyItem "status" with
    | .error e => (.error e, d1, e1)
    | .ok v => (.ok (IN_PROCESS_STATUS_LIST.any fun s => v.eqStr s), d1, e1)

/-- `WorkflowDAO.get_submission_time` (script variant); same body as the
package variant, with `dtfmt` standing for the shared
`datetime.fromisoformat(iso).strftime(fmt)` library call. -/
def get_submission_time (dtfmt : String → String → Except PyErr String)
    (env : WfEnv) (dao : WorkflowDAOState) (strftime_format_string : Option String) :
    (Except PyErr JVal) × WorkflowDAOState × WfEnv :=
  match get_workflow_info env dao with
  | (.error e, d1, e1) => (.error e, d1, e1)
  | (.ok none, d1, e1) => (.error .typeError, d1, e1)
  | (.ok (some info), d1, e1) =>
    match info.pyItem "submissionDate" with
    | .error e => (.error e, d1, e1)
    | .ok submission_date =>
      match strftime_format_string with
      | none => (.ok submission_date, d1, e1)
      | some fmt =>
        match submission_date with
        | .str s =>
          (((dtfmt (pyReplaceChar 'Z' "+00:00" s) fmt).map JVal.str), d1, e1)
        | _ => (.error .attributeError, d1, e1)

end WorkflowInfo

/-! ### Order lemmas for the embedded Python string comparison -/

theorem lexLe_total (a b : List Char) : lexLe a b = true ∨ lexLe b a = true := by
  induction a generalizing b with
  | nil => left; rfl
  | cons x xs ih =>
    cases b with
    | nil => right; rfl
    | cons y ys =>
      simp only [lexLe]
      rcases Nat.lt_trichotomy x.toNat y.toNat with h | h | h
      · left; simp [h]
      · have h1 : ¬ x.toNat < y.toNat := by omega
        have h2 : ¬ y.toNat < x.toNat := by omega
        rcases ih ys with h3 | h3
        · left; simp [h1, h2, h3]
        · right; simp [h1, h2, h3]
      · right; simp [h, Nat.lt_asymm h]

theorem lexLe_trans (a b c : List Char) (h1 : lexLe a b = true) (h2 : lexLe b c = true) :
    lexLe a c = true := by
  induction a generalizing b c with
  | nil => rfl
  | cons x xs ih =>
    cases b with
    | nil => simp [lexLe] at h1
    | cons y ys =>
      cases c with
      | nil => simp [lexLe] at h2
      | cons z zs =>
        simp only [lexLe] at h1 h2 ⊢
        by_cases hxy : x.toNat < y.toNat
        · by_cases hyz : y.toNat < z.toNat
          · simp [Nat.lt_trans hxy hyz]
          · by_cases hzy : z.toNat < y.toNat
            · simp [hyz, hzy] at h2
            · simp [show x.toNat < z.toNat by omega]
        · by_cases hyx : y.toNat < x.toNat
          · simp [hxy, hyx] at h1
          · simp only [if_neg hxy, if_neg hyx] at h1
            by_cases hyz : y.toNat < z.toNat
            · simp [show x.toNat < z.toNat by omega]
            · by_cases hzy : z.toNat < y.toNat
              · simp [hyz, hzy] at h2
              · simp only [if_neg hyz, if_neg hzy] at h2
                have hnxz : ¬ x.toNat < z.toNat := by omega
                have hnzx : ¬ z.toNat < x.toNat := by omega
                simp only [if_neg hnxz, if_neg hnzx]
                exact ih ys zs h1 h2

instance : IsTotal String (fun a b => strLe a b = true) :=
  ⟨fun a b => lexLe_total a.data b.data⟩

instance : IsTrans String (fun a b => strLe a b = true) :=
  ⟨fun a b c => lexLe_trans a.data b.data c.data⟩

/-! ### C1 -/

/-- C1: the claim says the flattened `{hop}.start_time` value is the UTC
display formatting of that hop's own `start_time` timestamp `t`.  In the code
`format_timestamp_as_utc` formats `time.time()` (the current clock reading)
and ignores its `seconds_since_epoch` argument, so the flattened value is the
formatting of the moment the row was written, not of `t`: with the clock at
86400 a hop whose `start_time` is 0 is flattened to "1970/01/02 00:00:00",
while the formatting of its own timestamp 0 is "1970/01/01 00:00:00". -/
theorem format_timestamp_as_utc_ignores_its_argument :
    (∀ now t t' : Nat,
      MonitorV2.format_timestamp_as_utc now t = MonitorV2.format_timestamp_as_utc now t') ∧
    (MonitorV2.flatten_monitoring_info_dict 86400
        [("hop", MonitorV2.monitoring_info 86400 0 ⟨200, "OK", .ok .null⟩)]).lookup
        "hop.start_time" = some (.str "1970/01/02 00:00:00") ∧
    MonitorV2.utcDisplayFormat 0 = "1970/01/01 00:00:00" ∧
    MonitorV2.format_timestamp_as_utc 86400 0 ≠ MonitorV2.utcDisplayFormat 0 := by
  refine ⟨fun now t t' => rfl, by decide, by decide, by decide⟩

/-! ### C2 -/

/-- C2 counterexample: with two hops inserted in the order `z_hop`, `a_hop`,
the CSV fieldnames are not the insertion-order flattened keys — the recorder
sorts them, so the `a_hop` columns come first. -/
theorem csv_column_order_not_insertion_order :
    (MonitorV2.write_monitoring_info_to_csv 0
        [("z_hop", MonitorV2.monitoring_info 0 0 ⟨200, "OK", .ok .null⟩),
         ("a_hop", MonitorV2.monitoring_info 0 0 ⟨200, "OK", .ok .null⟩)] false).fieldnames ≠
      (MonitorV2.flatten_monitoring_info_dict 0
        [("z_hop", MonitorV2.monitoring_info 0 0 ⟨200, "OK", .ok .null⟩),
         ("a_hop", MonitorV2.monitoring_info 0 0 ⟨200, "OK", .ok .null⟩)]).map Prod.fst := by
  decide

/-- C2 amended: the CSV column order produced by the Result Recorder is the
ascending lexicographic sort of the flattened `{hop}.{field}` keys — a
permutation of them that is independent of hop insertion order — rather than
the insertion order itself. -/
theorem csv_fieldnames_sorted_perm (now : Nat)
    (monitoring_info_dict : List (String × MonitorV2.MonInfo)) (file_exists : Bool) :
    List.Sorted (fun a b => strLe a b = true)
      (MonitorV2.write_monitoring_info_to_csv now monitoring_info_dict file_exists).fieldnames ∧
    (MonitorV2.write_monitoring_info_to_csv now monitoring_info_dict file_exists).fieldnames.Perm
      ((MonitorV2.flatten_monitoring_info_dict now monitoring_info_dict).map Prod.fst) := by
  constructor
  · exact List.sorted_insertionSort _ _
  · exact List.perm_insertionSort _ _

/-! ### C3 -/

/-- C3: the DRS flow records at most the four defined hops, always a
leading segment of the hop sequence (so steps after a failed prerequisite are
absent; the flow is a total function of the world, so no exception escapes the
flow boundary); and when the Bond access-token step completes but yields no
token, exactly the metadata hop and the token hop are recorded. -/
theorem measure_response_times_partial_hops (w : MonitorV2.DrsFlowWorld) :
    (∃ k, k ≤ 4 ∧ (MonitorV2.measure_response_times w).map Prod.fst =
        MonitorV2.drsFlowHopNames.take k) ∧
    (∀ tok url md mi1 mi2,
      w.terra_token = .ok tok →
      MonitorV2.get_gen3_drs_resolution w.indexd_obs
          MonitorV2.gen3_bdc_staging.public_drs_uri = .ok (url, md, mi1) →
      MonitorV2.get_fence_token_from_bond w.bond_token_obs = .ok (none, mi2) →
      MonitorV2.measure_response_times w =
        [("indexd_get_metadata", mi1), ("bond_get_access_token", mi2)]) := by
  constructor
  · unfold MonitorV2.measure_response_times
    split
    · exact ⟨0, by omega, rfl⟩
    · split
      · exact ⟨0, by omega, rfl⟩
      · split
        · exact ⟨1, by omega, rfl⟩
        · split
          · exact ⟨2, by omega, rfl⟩
          · split
            · exact ⟨2, by omega, rfl⟩
            · split
              · exact ⟨3, by omega, rfl⟩
              · exact ⟨4, by omega, rfl⟩
  · intro tok url md mi1 mi2 htok hres hbond
    unfold MonitorV2.measure_response_times
    rw [htok, hres, hbond]
    rfl

def c3RespA : Response := ⟨200, "OK", .ok (.obj [])⟩

def c3World : MonitorV2.DrsFlowWorld :=
  { terra_token := .ok "tok"
    indexd_obs := ⟨0, 1, .ok c3RespA⟩
    bond_token_obs := ⟨2, 3, .ok c3RespA⟩
    bond_sa_obs := ⟨0, 0, .error .connectionError⟩
    fence_obs := ⟨0, 0, .error .connectionError⟩ }

/-- C3 witness: a concrete world where the Bond token response is ok but
carries no `token` field; the flow records exactly the first two hops. -/
theorem measure_response_times_partial_hops_witness :
    MonitorV2.measure_response_times c3World =
      [("indexd_get_metadata", MonitorV2.monitoring_info 1 0 c3RespA),
       ("bond_get_access_token", MonitorV2.monitoring_info 3 2 c3RespA)] :=
  (measure_response_times_partial_hops c3World).2 "tok"
    ("https://staging.gen3.biodatacatalyst.nhlbi.nih.gov/ga4gh/drs/v1/objects/dg.712C/fa640b0e-9779-452f-99a6-16d833d15bd0")
    (some (.obj [])) (MonitorV2.monitoring_info 1 0 c3RespA)
    (MonitorV2.monitoring_info 3 2 c3RespA) rfl rfl rfl

/-! ### C4 -/

/-- C4 counterexample: a 304 response is not a 2xx status, yet the Bond
access-token probe parses its body (the token is returned, not null), because
`requests.Response.ok` is true for every status below 400. -/
theorem probe_parses_body_at_304 :
    ¬ (200 ≤ 304 ∧ 304 < 300) ∧
    MonitorV2.get_fence_token_from_bond
        ⟨0, 1, .ok ⟨304, "Not Modified", .ok (.obj [("token", .str "tok")])⟩⟩ =
      .ok (some (.str "tok"),
        MonitorV2.monitoring_info 1 0 ⟨304, "Not Modified", .ok (.obj [("token", .str "tok")])⟩) :=
  ⟨by omega, rfl⟩

/-- C4 amended: for every HTTP probe call that completes with a 4xx/5xx
status (the code's non-success condition — `requests`' `ok` is
`status < 400`, so 3xx counts as success), the returned parsed body is null
while the ProbeResult still records the response's status code and reason,
and no exception is raised at this layer. -/
theorem probe_null_body_records_status (obs : CallObs) (resp : Response)
    (hresp : obs.response = .ok resp)
    (h4 : 400 ≤ resp.status_code) (h6 : resp.status_code < 600) :
    MonitorV2.get_fence_token_from_bond obs =
      .ok (none, MonitorV2.monitoring_info obs.end_time obs.start_time resp) ∧
    MonitorV2.get_service_account_key_from_bond obs =
      .ok (none, MonitorV2.monitoring_info obs.end_time obs.start_time resp) ∧
    (∀ uri, pyStartswith uri "drs://" = true →
      ∃ url, MonitorV2.get_gen3_drs_resolution obs uri =
        .ok (url, none, MonitorV2.monitoring_info obs.end_time obs.start_time resp)) ∧
    (∀ uri access_id, pyStartswith uri "drs://" = true →
      ∃ url, MonitorV2.get_gen3_drs_access obs uri access_id =
        .ok (url, none, MonitorV2.monitoring_info obs.end_time obs.start_time resp)) ∧
    (MonitorV2.monitoring_info obs.end_time obs.start_time resp).response_code =
      .int resp.status_code ∧
    (MonitorV2.monitoring_info obs.end_time obs.start_time resp).response_reason =
      .str resp.reason := by
  have hok : resp.ok = false := by
    have hb : (400 ≤ resp.status_code && resp.status_code < 600) = true := by
      simp [h4, h6]
    simp [Response.ok, hb]
  refine ⟨?_, ?_, ?_, ?_, rfl, rfl⟩
  · simp [MonitorV2.get_fence_token_from_bond, hresp, hok, Bind.bind, Except.bind, Pure.pure,
      Except.pure]
  · simp [MonitorV2.get_service_account_key_from_bond, hresp, hok, Bind.bind, Except.bind,
      Pure.pure, Except.pure]
  · intro uri hu
    refine ⟨"https://" ++ MonitorV2.gen3_bdc_staging.gen3_host ++ "/ga4gh/drs/v1/objects/" ++
      MonitorV2.drs_object_id uri, ?_⟩
    simp [MonitorV2.get_gen3_drs_resolution, hu, hresp, hok, Bind.bind, Except.bind,
      Pure.pure, Except.pure]
  · intro uri access_id hu
    refine ⟨"https://" ++ MonitorV2.gen3_bdc_staging.gen3_host ++ "/ga4gh/drs/v1/objects/" ++
      MonitorV2.drs_object_id uri ++ "/access/" ++ access_id, ?_⟩
    simp [MonitorV2.get_gen3_drs_access, hu, hresp, hok, Bind.bind, Except.bind,
      Pure.pure, Except.pure]

/-- C4 witness: the amended statement at a concrete 503 response. -/
theorem probe_null_body_records_status_witness :
    MonitorV2.get_fence_token_from_bond ⟨5, 7, .ok ⟨503, "Service Unavailable", .ok .null⟩⟩ =
      .ok (none, MonitorV2.monitoring_info 7 5 ⟨503, "Service Unavailable", .ok .null⟩) ∧
    (MonitorV2.monitoring_info 7 5 ⟨503, "Service Unavailable", .ok .null⟩).response_code =
      .int 503 :=
  ⟨(probe_null_body_records_status ⟨5, 7, .ok ⟨503, "Service Unavailable", .ok .null⟩⟩
      ⟨503, "Service Unavailable", .ok .null⟩ rfl (by decide) (by decide)).1,
   (probe_null_body_records_status ⟨5, 7, .ok ⟨503, "Service Unavailable", .ok .null⟩⟩
      ⟨503, "Service Unavailable", .ok .null⟩ rfl (by decide) (by decide)).2.2.2.2.1⟩

/-! ### C5 -/

theorem splitOnChar_ne_nil (c : Char) (l : List Char) : splitOnChar c l ≠ [] := by
  cases l with
  | nil => simp [splitOnChar]
  | cons x xs =>
    unfold splitOnChar
    cases hs : splitOnChar c xs with
    | nil => simp
    | cons h t => dsimp only; split <;> simp

theorem splitOnChar_of_not_mem (c : Char) (l : List Char) (h : c ∉ l) :
    splitOnChar c l = [l] := by
  induction l with
  | nil => rfl
  | cons x xs ih =>
    have hx : ¬ x = c := fun he => h (he ▸ List.mem_cons_self x xs)
    have hxs : c ∉ xs := fun hm => h (List.mem_cons_of_mem _ hm)
    simp only [splitOnChar, ih hxs]
    simp [hx]

theorem two_le_splitOnChar_length (c : Char) (l : List Char) (h : c ∈ l) :
    2 ≤ (splitOnChar c l).length := by
  induction l with
  | nil => cases h
  | cons x xs ih =>
    simp only [splitOnChar]
    cases hs : splitOnChar c xs with
    | nil => exact absurd hs (splitOnChar_ne_nil c xs)
    | cons h1 t =>
      by_cases hx : x = c
      · simp [hx, List.length]
      · have hm : c ∈ xs := by
          rcases List.mem_cons.mp h with h' | h'
          · exact absurd h'.symm hx
          · exact h'
        have h2 := ih hm
        rw [hs] at h2
        simp only [List.length_cons] at h2
        simp [hx, List.length]
        omega

theorem splitOnChar_getLastD (c : Char) (l : List Char) :
    c ∉ (splitOnChar c l).getLastD [] ∧
    (c ∈ l → ∃ p, l = p ++ c :: (splitOnChar c l).getLastD []) ∧
    (c ∉ l → (splitOnChar c l).getLastD [] = l) := by
  induction l with
  | nil =>
    refine ⟨by simp [splitOnChar], by simp, fun _ => by simp [splitOnChar]⟩
  | cons x xs ih =>
    obtain ⟨ih1, ih2, ih3⟩ := ih
    cases hs : splitOnChar c xs with
    | nil => exact absurd hs (splitOnChar_ne_nil c xs)
    | cons h1 t =>
      rw [hs] at ih1 ih2 ih3
      by_cases hx : x = c
      · have hres : splitOnChar c (x :: xs) = [] :: h1 :: t := by
          simp [splitOnChar, hs, hx]
        rw [hres]
        have hgl : (([] : List Char) :: h1 :: t).getLastD [] = (h1 :: t).getLastD [] := by
          simp [List.getLastD_cons]
        rw [hgl]
        refine ⟨ih1, ?_, ?_⟩
        · intro _
          by_cases hm : c ∈ xs
          · obtain ⟨p, hp⟩ := ih2 hm
            exact ⟨x :: p, by rw [List.cons_append, ← hp]⟩
          · refine ⟨[], ?_⟩
            rw [ih3 hm, List.nil_append, hx]
        · intro hn
          exact absurd (hx ▸ List.mem_cons_self x xs) hn
      · have hres : splitOnChar c (x :: xs) = (x :: h1) :: t := by
          simp [splitOnChar, hs, hx]
        rw [hres]
        cases t with
        | nil =>
          have hm : c ∉ xs := by
            intro hm
            have := two_le_splitOnChar_length c xs hm
            rw [hs] at this
            simp at this
          have hxx : h1 = xs := by
            have := ih3 hm
            simpa using this
          have hlast : ((x :: h1) :: ([] : List (List Char))).getLastD [] = x :: h1 := by
            simp [List.getLastD]
          rw [hlast, hxx]
          refine ⟨?_, ?_, fun _ => rfl⟩
          · intro hcm
            rcases List.mem_cons.mp hcm with h' | h'
            · exact hx h'.symm
            · exact hm h'
          · intro hcm
            rcases List.mem_cons.mp hcm with h' | h'
            · exact absurd h'.symm hx
            · exact absurd h' hm
        | cons t0 t1 =>
          have hm : c ∈ xs := by
            by_contra hnm
            have := splitOnChar_of_not_mem c xs hnm
            rw [hs] at this
            simp at this
          have hgl : ((x :: h1) :: t0 :: t1).getLastD [] = (h1 :: t0 :: t1).getLastD [] := by
            simp [List.getLastD_cons]
          rw [hgl]
          refine ⟨ih1, ?_, ?_⟩
          · intro _
            obtain ⟨p, hp⟩ := ih2 hm
            exact ⟨x :: p, by rw [List.cons_append, ← hp]⟩
          · intro hn
            exact absurd (List.mem_cons_of_mem x hm) hn

theorem startsWithChars_append (s p : List Char) (h : startsWithChars s p = true) :
    ∃ t, s = p ++ t := by
  induction p generalizing s with
  | nil => exact ⟨s, rfl⟩
  | cons q qs ih =>
    cases s with
    | nil => simp [startsWithChars] at h
    | cons a as =>
      simp only [startsWithChars, Bool.and_eq_true, beq_iff_eq] at h
      obtain ⟨ha, hrest⟩ := h
      obtain ⟨t, ht⟩ := ih as hrest
      exact ⟨t, by rw [ha, ht, List.cons_append]⟩

/-- C5: for every DRS-style URI beginning with `drs://`, the object id the
code uses for data-index lookups (`drs_uri.split(":")[-1]`) is the substring
after the last colon — the URI decomposes as everything up to a final colon
followed by the object id, which itself contains no colon — and on the
repository's example URI it is `dg.712C/fa640b0e-9779-452f-99a6-16d833d15bd0`. -/
theorem drs_object_id_after_last_colon :
    (∀ uri : String, pyStartswith uri "drs://" = true →
      (∃ p, uri.data = p ++ ':' :: (MonitorV2.drs_object_id uri).data) ∧
      ':' ∉ (MonitorV2.drs_object_id uri).data) ∧
    MonitorV2.drs_object_id "drs://dg.712C:dg.712C/fa640b0e-9779-452f-99a6-16d833d15bd0" =
      "dg.712C/fa640b0e-9779-452f-99a6-16d833d15bd0" := by
  constructor
  · intro uri hu
    obtain ⟨t, ht⟩ := startsWithChars_append uri.data ("drs://".data) hu
    have hmem : ':' ∈ uri.data := by
      rw [ht]
      exact List.mem_append_left t (by decide)
    obtain ⟨h1, h2, _⟩ := splitOnChar_getLastD ':' uri.data
    have hdata : (MonitorV2.drs_object_id uri).data =
        (splitOnChar ':' uri.data).getLastD [] := rfl
    rw [hdata]
    exact ⟨h2 hmem, h1⟩
  · decide

/-- C5 witness: the general decomposition applied to the repository's
concrete public DRS URI. -/
theorem drs_object_id_after_last_colon_witness :
    (∃ p, ("drs://dg.712C:dg.712C/fa640b0e-9779-452f-99a6-16d833d15bd0" : String).data =
      p ++ ':' :: (MonitorV2.drs_object_id
        "drs://dg.712C:dg.712C/fa640b0e-9779-452f-99a6-16d833d15bd0").data) ∧
    ':' ∉ (MonitorV2.drs_object_id
        "drs://dg.712C:dg.712C/fa640b0e-9779-452f-99a6-16d833d15bd0").data :=
  drs_object_id_after_last_colon.1
    "drs://dg.712C:dg.712C/fa640b0e-9779-452f-99a6-16d833d15bd0" (by decide)

/-! ### C6 -/

/-- The selection predicate of the access-method loop: the method's `type`
field exists and equals the configured scheme. -/
def accessMethodTypeIs (scheme : String) (m : JVal) : Bool :=
  match m.pyItem "type" with
  | .ok t => t.eqStr scheme
  | .error _ => false

theorem getDrsAccessIdLoop_finds_first (scheme : String) (ms : List JVal)
    (hty : ∀ m ∈ ms, ∃ t, m.pyItem "type" = .ok t) :
    (ms.find? (accessMethodTypeIs scheme) = none →
      MonitorV2.getDrsAccessIdLoop scheme ms = .ok none) ∧
    (∀ m, ms.find? (accessMethodTypeIs scheme) = some m →
      MonitorV2.getDrsAccessIdLoop scheme ms = (m.pyItem "access_id").map jopt) := by
  induction ms with
  | nil => exact ⟨fun _ => rfl, fun m hm => by simp at hm⟩
  | cons m ms ih =>
    obtain ⟨t, ht⟩ := hty m (List.mem_cons_self m ms)
    obtain ⟨ih1, ih2⟩ := ih fun m' hm' => hty m' (List.mem_cons_of_mem _ hm')
    by_cases hm : t.eqStr scheme
    · have hp : accessMethodTypeIs scheme m = true := by
        simp [accessMethodTypeIs, ht, hm]
      constructor
      · intro hfind
        rw [List.find?_cons_of_pos _ hp] at hfind
        cases hfind
      · intro m' hfind
        rw [List.find?_cons_of_pos _ hp] at hfind
        cases hfind
        simp [MonitorV2.getDrsAccessIdLoop, ht, hm]
    · have hp : ¬ accessMethodTypeIs scheme m = true := by
        simp [accessMethodTypeIs, ht, hm]
      have hloop : MonitorV2.getDrsAccessIdLoop scheme (m :: ms) =
          MonitorV2.getDrsAccessIdLoop scheme ms := by
        simp [MonitorV2.getDrsAccessIdLoop, ht, hm]
      constructor
      · intro hfind
        rw [List.find?_cons_of_neg _ hp] at hfind
        rw [hloop]
        exact ih1 hfind
      · intro m' hfind
        rw [List.find?_cons_of_neg _ hp] at hfind
        rw [hloop]
        exact ih2 m' hfind

/-- C6: over an `access_methods` array whose entries each carry a `type`
field, `_get_drs_access_id` returns the `access_id` of the first access
method whose type equals the configured scheme, and `None` (not an error)
when no method matches; in particular the list
`[{type:"s3",...},{type:"gs",access_id:"X"}]` resolves to `"X"` for scheme
`"gs"` and to `None` for scheme `"az"`. -/
theorem drs_access_id_first_match (ms : List JVal) (scheme : String)
    (hty : ∀ m ∈ ms, ∃ t, m.pyItem "type" = .ok t) :
    (ms.find? (accessMethodTypeIs scheme) = none →
      MonitorV2._get_drs_access_id (.obj [("access_methods", .arr ms)]) scheme = .ok none) ∧
    (∀ m, ms.find? (accessMethodTypeIs scheme) = some m →
      MonitorV2._get_drs_access_id (.obj [("access_methods", .arr ms)]) scheme =
        (m.pyItem "access_id").map jopt) ∧
    MonitorV2._get_drs_access_id
        (.obj [("access_methods", .arr
          [.obj [("type", .str "s3"), ("access_url", .str "s3://bucket/key")],
           .obj [("type", .str "gs"), ("access_id", .str "X")]])]) "gs" =
      .ok (some (.str "X")) ∧
    MonitorV2._get_drs_access_id
        (.obj [("access_methods", .arr
          [.obj [("type", .str "s3"), ("access_url", .str "s3://bucket/key")],
           .obj [("type", .str "gs"), ("access_id", .str "X")]])]) "az" =
      .ok none := by
  have hbody : MonitorV2._get_drs_access_id (.obj [("access_methods", .arr ms)]) scheme =
      MonitorV2.getDrsAccessIdLoop scheme ms := by
    simp [MonitorV2._get_drs_access_id, JVal.pyItem, List.lookup]
  obtain ⟨g1, g2⟩ := getDrsAccessIdLoop_finds_first scheme ms hty
  refine ⟨fun h => by rw [hbody]; exact g1 h,
          fun m h => by rw [hbody]; exact g2 m h, rfl, rfl⟩

/-- C6 witness: the general selection statement applied to the example list,
both for the matching scheme `"gs"` and for the unmatched scheme `"az"`. -/
theorem drs_access_id_first_match_witness :
    MonitorV2._get_drs_access_id
        (.obj [("access_methods", .arr
          [.obj [("type", .str "s3"), ("access_url", .str "s3://bucket/key")],
           .obj [("type", .str "gs"), ("access_id", .str "X")]])]) "gs" =
      ((JVal.obj [("type", .str "gs"), ("access_id", .str "X")]).pyItem "access_id").map jopt ∧
    MonitorV2._get_drs_access_id
        (.obj [("access_methods", .arr
          [.obj [("type", .str "s3"), ("access_url", .str "s3://bucket/key")],
           .obj [("type", .str "gs"), ("access_id", .str "X")]])]) "az" =
      .ok none :=
  ⟨(drs_access_id_first_match
      [.obj [("type", .str "s3"), ("access_url", .str "s3://bucket/key")],
       .obj [("type", .str "gs"), ("access_id", .str "X")]] "gs"
      (by intro m hm
          simp only [List.mem_cons, List.not_mem_nil, or_false] at hm
          rcases hm with hm | hm
          · exact ⟨.str "s3", by rw [hm]; rfl⟩
          · exact ⟨.str "gs", by rw [hm]; rfl⟩)).2.1
      (.obj [("type", .str "gs"), ("access_id", .str "X")]) rfl,
   (drs_access_id_first_match
      [.obj [("type", .str "s3"), ("access_url", .str "s3://bucket/key")],
       .obj [("type", .str "gs"), ("access_id", .str "X")]] "az"
      (by intro m hm
          simp only [List.mem_cons, List.not_mem_nil, or_false] at hm
          rcases hm with hm | hm
          · exact ⟨.str "s3", by rw [hm]; rfl⟩
          · exact ⟨.str "gs", by rw [hm]; rfl⟩)).1 rfl⟩

/-! ### C7 -/

/-- C7: for every fetched workflow snapshot whose status field is the string
`s`, `is_in_process()` returns true iff `s` is exactly one of "Queued",
"Submitted", "Running"; any other string yields false, and on a false result
the poll loop prints the final status and exits at once. -/
theorem is_in_process_iff_three_statuses (env : WfEnv) (dao : WorkflowDAOState)
    (info : JVal) (s : String)
    (h : dao.workflow_info = some info)
    (hs : info.pyItem "status" = .ok (.str s)) :
    ((WorkflowStatus.is_in_process env dao).1 = .ok true ↔
      s = "Queued" ∨ s = "Submitted" ∨ s = "Running") ∧
    ((WorkflowStatus.is_in_process env dao).1 = .ok false ↔
      s ≠ "Queued" ∧ s ≠ "Submitted" ∧ s ≠ "Running") ∧
    (s ≠ "Queued" → s ≠ "Submitted" → s ≠ "Running" → ∀ n,
      WorkflowStatus.wait_for_workflow_to_complete (n + 1) env dao =
        (["Final Submission status: " ++ s], dao, env, .ok ())) := by
  have hcore : ∀ e : WfEnv, WorkflowStatus.is_in_process e dao =
      (.ok (s == "Queued" || (s == "Submitted" || s == "Running")), dao, e) := by
    intro e
    simp [WorkflowStatus.is_in_process, WorkflowStatus.get_workflow_info, h, hs,
      WorkflowStatus.in_process_status_list, JVal.eqStr]
  refine ⟨?_, ?_, ?_⟩
  · rw [hcore]
    simp
  · rw [hcore]
    simp
  · intro h1 h2 h3 n
    have hfalse : WorkflowStatus.is_in_process env dao = (.ok false, dao, env) := by
      rw [hcore]
      simp [h1, h2, h3]
    have hstatus : WorkflowStatus.get_submission_status env dao = (.ok (.str s), dao, env) := by
      simp [WorkflowStatus.get_submission_status, WorkflowStatus.get_workflow_info, h, hs]
    simp [WorkflowStatus.wait_for_workflow_to_complete, hfalse, hstatus, WorkflowStatus.pyStr]

/-- C7 witness: a snapshot with status "Running" is in process; one with the
unseen status "Succeeded" is not, and the poll loop prints the final status
and exits immediately. -/
theorem is_in_process_iff_three_statuses_witness :
    (WorkflowStatus.is_in_process ⟨[], []⟩
        ⟨some (.obj [("status", .str "Running")])⟩).1 = .ok true ∧
    (WorkflowStatus.is_in_process ⟨[], []⟩
        ⟨some (.obj [("status", .str "Succeeded")])⟩).1 = .ok false ∧
    WorkflowStatus.wait_for_workflow_to_complete 1 ⟨[], []⟩
        ⟨some (.obj [("status", .str "Succeeded")])⟩ =
      (["Final Submission status: Succeeded"],
        ⟨some (.obj [("status", .str "Succeeded")])⟩, ⟨[], []⟩, .ok ()) :=
  ⟨(is_in_process_iff_three_statuses ⟨[], []⟩ ⟨some (.obj [("status", .str "Running")])⟩
      (.obj [("status", .str "Running")]) "Running" rfl rfl).1.mpr (by decide),
   (is_in_process_iff_three_statuses ⟨[], []⟩ ⟨some (.obj [("status", .str "Succeeded")])⟩
      (.obj [("status", .str "Succeeded")]) "Succeeded" rfl rfl).2.1.mpr (by decide),
   (is_in_process_iff_three_statuses ⟨[], []⟩ ⟨some (.obj [("status", .str "Succeeded")])⟩
      (.obj [("status", .str "Succeeded")]) "Succeeded" rfl rfl).2.2
      (by decide) (by decide) (by decide) 0⟩

/-! ### C8 -/

/-- C8 counterexample: in the never-fetched state (`workflow_info is None`),
`is_in_process()` does perform a fetch — it consumes a response from the
environment and changes the stored snapshot — because `get_workflow_info`
lazily calls `update()` when no snapshot is stored. -/
theorem is_in_process_refetches_when_no_snapshot :
    ((WorkflowStatus.is_in_process
        ⟨[.ok "tok"], [.ok ⟨200, "OK", .ok (.obj [("status", .str "Running")])⟩]⟩
        ⟨none⟩).2.1.workflow_info).isSome = true ∧
    (WorkflowStatus.is_in_process
        ⟨[.ok "tok"], [.ok ⟨200, "OK", .ok (.obj [("status", .str "Running")])⟩]⟩
        ⟨none⟩).2.2.responses.length ≠
      ((⟨[.ok "tok"], [.ok ⟨200, "OK", .ok (.obj [("status", .str "Running")])⟩]⟩ :
        WfEnv)).responses.length :=
  ⟨rfl, by decide⟩

/-- C8 amended: whenever a snapshot is present (after at least one successful
fetch), `is_in_process()` re-derives its answer from the stored snapshot
without performing a refetch — the environment is not consumed and its answer
does not depend on it — and leaves the stored snapshot unchanged.  In the
never-fetched state it instead performs a one-time lazy fetch via
`get_workflow_info`. -/
theorem is_in_process_frame_when_snapshot_present (env env' : WfEnv)
    (dao : WorkflowDAOState) (info : JVal) (h : dao.workflow_info = some info) :
    (WorkflowStatus.is_in_process env dao).2.1 = dao ∧
    (WorkflowStatus.is_in_process env dao).2.2 = env ∧
    (WorkflowStatus.is_in_process env dao).1 = (WorkflowStatus.is_in_process env' dao).1 := by
  refine ⟨?_, ?_, ?_⟩ <;>
    simp [WorkflowStatus.is_in_process, WorkflowStatus.get_workflow_info, h] <;>
    cases info.pyItem "status" <;> simp

/-- C8 witness: the amended frame statement at a concrete present snapshot
and two different environments. -/
theorem is_in_process_frame_when_snapshot_present_witness :
    (WorkflowStatus.is_in_process ⟨[], []⟩ ⟨some (.obj [("status", .str "Running")])⟩).2.1 =
      ⟨some (.obj [("status", .str "Running")])⟩ ∧
    (WorkflowStatus.is_in_process ⟨[], []⟩ ⟨some (.obj [("status", .str "Running")])⟩).2.2 =
      ⟨[], []⟩ ∧
    (WorkflowStatus.is_in_process ⟨[], []⟩ ⟨some (.obj [("status", .str "Running")])⟩).1 =
      (WorkflowStatus.is_in_process ⟨[.error .credentialError], [.error .connectionError]⟩
        ⟨some (.obj [("status", .str "Running")])⟩).1 :=
  is_in_process_frame_when_snapshot_present ⟨[], []⟩
    ⟨[.error .credentialError], [.error .connectionError]⟩
    ⟨some (.obj [("status", .str "Running")])⟩ (.obj [("status", .str "Running")]) rfl

/-! ### C9 -/

/-- C9 counterexample: a 304 response is non-2xx, yet `update()` raises no
exception — `raise_for_status` only raises for 4xx/5xx — and the poller
proceeds normally, storing the parsed body as the snapshot. -/
theorem update_no_exception_at_304 :
    ¬ (200 ≤ 304 ∧ 304 < 300) ∧
    (WorkflowStatus.update
        ⟨[.ok "tok"], [.ok ⟨304, "Not Modified", .ok (.obj [("status", .str "Done")])⟩]⟩
        ⟨none⟩).1 = .ok () ∧
    ((WorkflowStatus.update
        ⟨[.ok "tok"], [.ok ⟨304, "Not Modified", .ok (.obj [("status", .str "Done")])⟩]⟩
        ⟨none⟩).2.1.workflow_info).isSome = true :=
  ⟨by omega, rfl, rfl⟩

/-- C9 amended: an HTTP transport failure, or a 4xx/5xx response (the only
statuses `raise_for_status` raises for — 3xx responses do not raise), makes
`update()` raise an exception that nothing in the poller catches: the polling
loop aborts with that exception, printing no final status and leaving the
stored snapshot unchanged. -/
theorem workflow_poller_uncaught_abort
    (tok : String) (ts : List (Except PyErr String)) (rs : List (Except PyErr Response))
    (dao : WorkflowDAOState) :
    (∀ e : PyErr,
      (WorkflowStatus.update ⟨.ok tok :: ts, .error e :: rs⟩ dao).1 = .error e ∧
      (WorkflowStatus.update ⟨.ok tok :: ts, .error e :: rs⟩ dao).2.1 = dao) ∧
    (∀ resp : Response, 400 ≤ resp.status_code → resp.status_code < 600 →
      (WorkflowStatus.update ⟨.ok tok :: ts, .ok resp :: rs⟩ dao).1 = .error .httpError ∧
      (WorkflowStatus.update ⟨.ok tok :: ts, .ok resp :: rs⟩ dao).2.1 = dao) ∧
    (∀ info : JVal, dao.workflow_info = some info →
      info.pyItem "status" = .ok (.str "Running") →
      ∀ (e : PyErr) (n : Nat),
        WorkflowStatus.wait_for_workflow_to_complete (n + 1)
            ⟨.ok tok :: ts, .error e :: rs⟩ dao =
          (["Submission status: Running", "Sleeping for 30 seconds ...",
            "Getting current submission status ... "], dao, ⟨ts, rs⟩, .error e)) := by
  refine ⟨?_, ?_, ?_⟩
  · intro e
    exact ⟨rfl, rfl⟩
  · intro resp h4 h6
    have hb : (400 ≤ resp.status_code && resp.status_code < 600) = true := by
      simp [h4, h6]
    constructor <;>
      simp [WorkflowStatus.update, WfEnv.nextToken, WfEnv.nextResponse, hb]
  · intro info h hs e n
    have htrue : ∀ env : WfEnv, WorkflowStatus.is_in_process env dao = (.ok true, dao, env) := by
      intro env
      simp [WorkflowStatus.is_in_process, WorkflowStatus.get_workflow_info, h, hs,
        WorkflowStatus.in_process_status_list, JVal.eqStr]
    have hstatus : ∀ env : WfEnv,
        WorkflowStatus.get_submission_status env dao = (.ok (.str "Running"), dao, env) := by
      intro env
      simp [WorkflowStatus.get_submission_status, WorkflowStatus.get_workflow_info, h, hs]
    have hupd : WorkflowStatus.update ⟨.ok tok :: ts, .error e :: rs⟩ dao =
        (.error e, dao, ⟨ts, rs⟩) := rfl
    simp [WorkflowStatus.wait_for_workflow_to_complete, htrue, hstatus, hupd,
      WorkflowStatus.pyStr]

/-- C9 witness: the amended abort statement at a concrete transport failure,
a concrete 500 response, and a concrete in-process snapshot. -/
theorem workflow_poller_uncaught_abort_witness :
    (WorkflowStatus.update ⟨[.ok "tok"], [.error .connectionError]⟩
        ⟨some (.obj [("status", .str "Running")])⟩).1 = .error .connectionError ∧
    (WorkflowStatus.update ⟨[.ok "tok"], [.ok ⟨500, "Internal Server Error", .ok .null⟩]⟩
        ⟨some (.obj [("status", .str "Running")])⟩).1 = .error .httpError ∧
    WorkflowStatus.wait_for_workflow_to_complete 1
        ⟨[.ok "tok"], [.error .connectionError]⟩
        ⟨some (.obj [("status", .str "Running")])⟩ =
      (["Submission status: Running", "Sleeping for 30 seconds ...",
        "Getting current submission status ... "],
        ⟨some (.obj [("status", .str "Running")])⟩, ⟨[], []⟩, .error .connectionError) :=
  ⟨((workflow_poller_uncaught_abort "tok" [] [] ⟨some (.obj [("status", .str "Running")])⟩).1
      .connectionError).1,
   ((workflow_poller_uncaught_abort "tok" [] [] ⟨some (.obj [("status", .str "Running")])⟩).2.1
      ⟨500, "Internal Server Error", .ok .null⟩ (by decide) (by decide)).1,
   (workflow_poller_uncaught_abort "tok" [] [] ⟨some (.obj [("status", .str "Running")])⟩).2.2
      (.obj [("status", .str "Running")]) rfl rfl .connectionError 0⟩

/-! ### C10 -/

/-- C10: the script-variant and package-variant `WorkflowDAO` agree on their
shared interface: for every stored workflow snapshot their `is_in_process()`
results agree, and for every snapshot, optional strftime format string and
ambient datetime-library behavior their `get_submission_time()` results
agree. -/
theorem workflow_dao_variants_agree (env env' : WfEnv) (dao : WorkflowDAOState)
    (info : JVal) (h : dao.workflow_info = some info) :
    (WorkflowInfo.is_in_process env dao).1 = (WorkflowStatus.is_in_process env' dao).1 ∧
    (∀ (dtfmt : String → String → Except PyErr String) (fmt : Option String),
      (WorkflowInfo.get_submission_time dtfmt env dao fmt).1 =
        (WorkflowStatus.get_submission_time dtfmt env' dao fmt).1) := by
  constructor
  · simp only [WorkflowInfo.is_in_process, WorkflowStatus.is_in_process,
      WorkflowInfo.get_workflow_info, WorkflowStatus.get_workflow_info, h,
      WorkflowInfo.IN_PROCESS_STATUS_LIST, WorkflowStatus.in_process_status_list]
    cases info.pyItem "status" <;> rfl
  · intro dtfmt fmt
    simp only [WorkflowInfo.get_submission_time, WorkflowStatus.get_submission_time,
      WorkflowInfo.get_workflow_info, WorkflowStatus.get_workflow_info, h]
    cases info.pyItem "submissionDate" with
    | error e => rfl
    | ok sd =>
      cases fmt with
      | none => rfl
      | some f => cases sd <;> rfl

/-- C10 witness: agreement of the two variants on a concrete snapshot, with a
concrete format string and a concrete datetime-library behavior. -/
theorem workflow_dao_variants_agree_witness :
    (WorkflowInfo.is_in_process ⟨[], []⟩
        ⟨some (.obj [("status", .str "Running"),
                     ("submissionDate", .str "2022-01-01T00:00:00.000Z")])⟩).1 =
      (WorkflowStatus.is_in_process ⟨[.ok "tok"], []⟩
        ⟨some (.obj [("status", .str "Running"),
                     ("submissionDate", .str "2022-01-01T00:00:00.000Z")])⟩).1 ∧
    (WorkflowInfo.get_submission_time (fun i f => .ok (i ++ "|" ++ f)) ⟨[], []⟩
        ⟨some (.obj [("status", .str "Running"),
                     ("submissionDate", .str "2022-01-01T00:00:00.000Z")])⟩
        (some "%Y/%m/%d %H:%M:%S")).1 =
      (WorkflowStatus.get_submission_time (fun i f => .ok (i ++ "|" ++ f)) ⟨[.ok "tok"], []⟩
        ⟨some (.obj [("status", .str "Running"),
                     ("submissionDate", .str "2022-01-01T00:00:00.000Z")])⟩
        (some "%Y/%m/%d %H:%M:%S")).1 :=
  ⟨(workflow_dao_variants_agree ⟨[], []⟩ ⟨[.ok "tok"], []⟩
      ⟨some (.obj [("status", .str "Running"),
                   ("submissionDate", .str "2022-01-01T00:00:00.000Z")])⟩
      (.obj [("status", .str "Running"),
             ("submissionDate", .str "2022-01-01T00:00:00.000Z")]) rfl).1,
   (workflow_dao_variants_agree ⟨[], []⟩ ⟨[.ok "tok"], []⟩
      ⟨some (.obj [("status", .str "Running"),
                   ("submissionDate", .str "2022-01-01T00:00:00.000Z")])⟩
      (.obj [("status", .str "Running"),
             ("submissionDate", .str "2022-01-01T00:00:00.000Z")]) rfl).2
      (fun i f => .ok (i ++ "|" ++ f)) (some "%Y/%m/%d %H:%M:%S")⟩
